import Mathlib

/-!
# BayesIQ Tool Execution Gateway — verification development

Shallow embedding of the repository's hard core: the policy engine
(`src/biq_platform/policy/policy.py`), the audit-store repository layer
(`src/apps/agent/db/repo.py`, `src/apps/agent/db/engine.py`), the gateway
state machine (`src/packages/platform/gateway/gateway.py`) and the tool
registry (`src/packages/platform/registry/registry.py`).

Python JSON payloads are modelled by the inductive type `JVal`; Python dicts
by association lists `JDict` with unique keys assumed where the source
assumes them.  Machine integers do not overflow in the modelled code paths
(Python ints are unbounded), so `Int`/`Nat` are used directly.
SQLAlchemy session semantics are modelled explicitly: writes made inside the
`with db_session() as db:` block are committed when the block exits; writes
made on the session object after the block has exited are flushed to the
session only and never committed (the `db_session` context manager is the
single place that calls `commit`).
-/

namespace BayesIQ

/-- Model of a Python JSON-ish value as passed around the gateway. -/
inductive JVal where
  | jnull : JVal
  | jbool (b : Bool) : JVal
  | jint (n : Int) : JVal
  | jstr (s : String) : JVal
  | jlist (xs : List JVal) : JVal
  | jdict (kvs : List (String × JVal)) : JVal
  deriving Repr

/-- A Python dict with JSON-ish values, as an association list
(unique keys; insertion order preserved, as in Python). -/
abbrev JDict := List (String × JVal)

/-- `d.get(k)`: first binding of `k`, if any. -/
def jget (d : JDict) (k : String) : Option JVal :=
  match d with
  | [] => none
  | (k', v) :: rest => if k' = k then some v else jget rest k

/-- `d[k] = v`: replace the binding of `k` in place, or append it
(Python dict assignment keeps the key's position if present). -/
def jset (d : JDict) (k : String) (v : JVal) : JDict :=
  match d with
  | [] => [(k, v)]
  | (k', v') :: rest => if k' = k then (k, v) :: rest else (k', v') :: jset rest k v

/-- `s.startswith(p)`: prefix test, by character list (Python `str` prefix
semantics; defined here so concrete instances compute by `decide`). -/
def strStartsWith (s p : String) : Bool := p.toList.isPrefixOf s.toList

/-- `v is None`. -/
def JVal.isNull : JVal → Bool
  | .jnull => true
  | _ => false

/-- Python truthiness of a JSON-ish value (`bool(v)`). -/
def jtruthy : JVal → Bool
  | .jnull => false
  | .jbool b => b
  | .jint n => n ≠ 0
  | .jstr s => s ≠ ""
  | .jlist xs => ¬ xs.isEmpty
  | .jdict kvs => ¬ kvs.isEmpty

/-- Models Python's `int(x)` builtin as used at `policy.py` line 122:
a partial coercion to an integer.  Everything about it is kept abstract
except the one fact the source relies on and Python guarantees:
`int(n) == n` when `n` is already an int. -/
structure PyIntCoercion where
  toIntFn : JVal → Option Int
  int_refl : ∀ n : Int, toIntFn (JVal.jint n) = some n

/-! ## Tool specs (src/biq_platform/registry/types.py) -/

/-- `ToolSpec` dataclass: static tool metadata discovered from a manifest.
Schema paths are modelled as plain strings. -/
structure ToolSpec where
  name : String
  mode : String
  handler : String
  input_schema_path : String
  output_schema_path : Option String
  description : String := ""
  deriving Repr, DecidableEq

/-! ## Policy configuration (src/biq_platform/policy/config.py) -/

structure SonosPolicy where
  allowed_rooms : List String
  max_volume : Int
  quiet_hours_enabled : Bool
  deriving Repr, DecidableEq

structure GitHubPolicy where
  allowed_repos : List String
  draft_only : Bool
  allow_merge : Bool
  allow_push_to_main : Bool
  deriving Repr, DecidableEq

structure ExecutionPolicy where
  default_mode : String
  approvals_required_for : List String
  deriving Repr, DecidableEq

structure PolicyConfig where
  timezone : String
  execution : ExecutionPolicy
  github : Option GitHubPolicy
  sonos : Option SonosPolicy

/-! ## Policy decisions (src/biq_platform/policy/types.py) -/

/-- `DecisionType = Literal["allow", "deny", "require_approval"]`. -/
inductive DecisionType where
  | allow
  | deny
  | require_approval
  deriving Repr, DecidableEq

/-- `PolicyDecision` dataclass; `__post_init__` replaces a `None` details
with `{}`, so `details` is always a dict here. -/
structure PolicyDecision where
  decision : DecisionType
  sanitized_input : JDict
  reason : Option String := none
  details : JDict := []

/-! ## Policy engine (src/biq_platform/policy/policy.py) -/

/-- `room is not None and room not in s.allowed_rooms` where
`room = sanitized.get("room")` (policy.py lines 110-111): an absent key or a
`None` value passes; a string is checked against the allowlist; any other
value is not an element of a list of strings, hence violates. -/
def roomNotAllowed (room : Option JVal) (allowed : List String) : Bool :=
  match room with
  | none => false
  | some .jnull => false
  | some (.jstr r) => ¬ allowed.contains r
  | some _ => true

/-- `input_json.get("draft") is not True` (policy.py line 81), negated. -/
def draftIsTrue (d : JDict) : Bool :=
  match jget d "draft" with
  | some (.jbool true) => true
  | _ => false

/-- `repo not in gh.allowed_repos` where `repo = input_json.get("repo")`
(policy.py lines 70-71), negated: only a string present in the allowlist is
a member of a list of strings. -/
def repoAllowed (repo : Option JVal) (allowed : List String) : Bool :=
  match repo with
  | some (.jstr r) => allowed.contains r
  | _ => false

/-- The JSON value recorded for a possibly-missing input field in a
`details` payload (Python records the `.get(...)` result, `None` if absent). -/
def optJ (v : Option JVal) : JVal := v.getD .jnull

/-- `PolicyEngine._eval_github_pr` (policy.py lines 60-92). -/
def evalGithubPr (cfg : PolicyConfig) (input_json : JDict) : PolicyDecision :=
  match cfg.github with
  | none => { decision := .deny, sanitized_input := input_json,
              reason := some "GitHub policy not configured" }
  | some gh =>
    let repo := jget input_json "repo"
    if ¬ repoAllowed repo gh.allowed_repos then
      { decision := .deny, sanitized_input := input_json,
        reason := some "Repo not allowlisted",
        details := [("repo", optJ repo),
                    ("allowed_repos", .jlist (gh.allowed_repos.map .jstr))] }
    else if gh.draft_only && !draftIsTrue input_json then
      let sanitized := jset input_json "draft" (.jbool true)
      { decision := .allow, sanitized_input := sanitized,
        reason := some "Enforced draft-only PR creation",
        details := [("repo", optJ repo)] }
    else
      { decision := .allow, sanitized_input := input_json }

/-- `PolicyEngine._eval_sonos` (policy.py lines 94-144).  The `sanitized =
dict(input_json)` shallow copy is the identity on the association-list
model.  `py` models the `int(...)` coercion at line 122. -/
def evalSonos (py : PyIntCoercion) (cfg : PolicyConfig) (input_json : JDict) :
    PolicyDecision :=
  match cfg.sonos with
  | none => { decision := .deny, sanitized_input := input_json,
              reason := some "Sonos policy not configured" }
  | some s =>
    let sanitized := input_json
    let room := jget sanitized "room"
    if roomNotAllowed room s.allowed_rooms then
      { decision := .deny, sanitized_input := sanitized,
        reason := some "Room not allowlisted",
        details := [("room", optJ room),
                    ("allowed_rooms", .jlist (s.allowed_rooms.map .jstr))] }
    else
      match jget sanitized "volume" with
      | none =>
        { decision := .require_approval, sanitized_input := sanitized,
          reason := some "Sonos actions require approval" }
      | some v =>
        if v.isNull then
          { decision := .require_approval, sanitized_input := sanitized,
            reason := some "Sonos actions require approval" }
        else
        match py.toIntFn v with
        | none =>
          { decision := .deny, sanitized_input := sanitized,
            reason := some "Invalid volume type",
            details := [("volume", v)] }
        | some n =>
          if n > s.max_volume then
            { decision := .require_approval,
              sanitized_input := jset sanitized "volume" (.jint s.max_volume),
              reason := some "Requested volume exceeds cap; capped and requires approval",
              details := [("requested", .jint n), ("capped_to", .jint s.max_volume)] }
          else
            { decision := .require_approval, sanitized_input := sanitized,
              reason := some "Sonos actions require approval" }

/-- `PolicyEngine.evaluate` (policy.py lines 20-58).  `context` is accepted
and ignored, as in the source. -/
def PolicyEngine.evaluate (py : PyIntCoercion) (cfg : PolicyConfig)
    (tool_spec : ToolSpec) (input_json : JDict) (_context : JDict) :
    PolicyDecision :=
  let name := tool_spec.name
  let mode := tool_spec.mode
  if mode = "read_only" then
    { decision := .allow, sanitized_input := input_json }
  else if mode = "draft" then
    if strStartsWith name "github.pr." then evalGithubPr cfg input_json
    else { decision := .allow, sanitized_input := input_json }
  else if mode = "execute_gated" then
    if strStartsWith name "sonos." then evalSonos py cfg input_json
    else { decision := .require_approval, sanitized_input := input_json,
           reason := some "execute_gated tool requires approval" }
  else
    { decision := .deny, sanitized_input := input_json,
      reason := some ("Unknown tool mode '" ++ mode ++ "'"),
      details := [("tool", .jstr name), ("mode", .jstr mode)] }

/-! ## Audit store (src/apps/agent/db/models.py, repo.py, engine.py)

Row ids (`uuid4` strings in the source) are modelled by naturals drawn from
a per-store counter; timestamps by abstract naturals.  `db_session` commits
exactly once, when the `with` block exits without an exception, and rolls
back when an exception propagates out of the block. -/

structure EventRow where
  profile_id : String
  session_id : String
  event_type : String
  payload_json : JDict

structure ToolRunRow where
  tool_run_id : Nat
  profile_id : String
  session_id : String
  request_id : String
  tool_name : String
  status : String
  input_json : JDict
  output_json : JDict
  error_json : JDict
  latency_ms : Nat

structure ApprovalRow where
  approval_id : Nat
  tool_run_id : Nat
  profile_id : String
  status : String
  ts_resolved : Option Nat
  approval_context_json : JDict

structure DBState where
  events : List EventRow
  tool_runs : List ToolRunRow
  approvals : List ApprovalRow
  next_id : Nat

/-- `repo.log_event`: append an `Event` row. -/
def log_event (db : DBState) (profile_id session_id event_type : String)
    (payload : JDict) : DBState :=
  { db with events := db.events ++ [⟨profile_id, session_id, event_type, payload⟩] }

/-- `repo.create_tool_run`: insert a `ToolRun` row; the `flush` assigns the
id, which is returned. -/
def create_tool_run (db : DBState) (profile_id session_id request_id tool_name : String)
    (input_json : JDict) (status : String) : Nat × DBState :=
  (db.next_id,
   { db with
       tool_runs := db.tool_runs ++
         [{ tool_run_id := db.next_id, profile_id, session_id, request_id,
            tool_name, status, input_json, output_json := [], error_json := [],
            latency_ms := 0 }],
       next_id := db.next_id + 1 })

/-- `repo.finalize_tool_run`: update the row in place (`output_json or {}`
and `error_json or {}` are the identity on this model's dicts). -/
def finalize_tool_run (db : DBState) (tool_run_id : Nat) (status : String)
    (output_json error_json : JDict) (latency_ms : Nat) : DBState :=
  { db with
      tool_runs := db.tool_runs.map fun tr =>
        if tr.tool_run_id = tool_run_id then
          { tr with status, output_json, error_json, latency_ms }
        else tr }

/-- `repo.create_approval`: insert an `Approval(status="pending")` row.  The
source returns the ORM row object, whose primary key is the id; the model
returns the id. -/
def create_approval (db : DBState) (tool_run_id : Nat) (profile_id : String)
    (context : JDict) : Nat × DBState :=
  (db.next_id,
   { db with
       approvals := db.approvals ++
         [{ approval_id := db.next_id, tool_run_id, profile_id,
            status := "pending", ts_resolved := none,
            approval_context_json := context }],
       next_id := db.next_id + 1 })

/-- `repo.get_approval`: primary-key lookup. -/
def get_approval (db : DBState) (approval_id : Nat) : Option ApprovalRow :=
  db.approvals.find? fun a => a.approval_id = approval_id

/-- `repo.get_tool_run`: primary-key lookup. -/
def get_tool_run (db : DBState) (tool_run_id : Nat) : Option ToolRunRow :=
  db.tool_runs.find? fun tr => tr.tool_run_id = tool_run_id

/-- `repo.resolve_approval`: set `status` and `ts_resolved = now`
(unconditional read-then-write, as in the source). -/
def resolve_approval (db : DBState) (approval_id : Nat) (status : String)
    (now : Nat) : DBState :=
  { db with
      approvals := db.approvals.map fun a =>
        if a.approval_id = approval_id then
          { a with status, ts_resolved := some now }
        else a }

/-! ## Error codes (packages/platform/errors)

Modelled from the spec: the gateway imports `ErrorCode` from
`packages.platform.errors`, whose defining module is not in the source
tree (only `models.py` with `ToolError` is); spec §7 fixes the closed set
of codes used below. -/

def ErrorCode.NOT_FOUND : String := "NOT_FOUND"

def ErrorCode.VALIDATION_ERROR : String := "VALIDATION_ERROR"

def ErrorCode.POLICY_VIOLATION : String := "POLICY_VIOLATION"

def ErrorCode.TIMEOUT : String := "TIMEOUT"

def ErrorCode.INTERNAL_ERROR : String := "INTERNAL_ERROR"

/-! ## Gateway (src/packages/platform/gateway/gateway.py) -/

/-- `ToolResult` dataclass (gateway.py lines 19-27). -/
structure ToolResult where
  status : String
  tool_name : String
  tool_version : String
  request_id : String
  data : JDict
  error : Option JDict
  meta : JDict

/-- Outcome of invoking a tool handler `tool.fn(input, context)`:
normal return, a raised typed `ToolError`, or any other exception. -/
inductive ExecOutcome where
  | ok (out : JDict)
  | toolError (code message : String) (details : JDict)
  | exn (message : String)

/-- A resolved tool (`Tool` dataclass): spec plus handler. -/
structure GTool where
  spec : ToolSpec
  fn : JDict → JDict → ExecOutcome

/-- Outcome of loading a schema and validating a payload against it
(`jsonschema.Draft202012Validator`, an external collaborator):
valid, a `ValidationError`, or any other exception while loading. -/
inductive ValOutcome where
  | ok
  | invalid (message : String) (path : List String)
  | loadErr (message : String)
  deriving Repr, DecidableEq

/-- The gateway's collaborators: the discovered registry (lookup plus
schema validation, keyed by tool name) and the policy engine's frozen
configuration. -/
structure GatewayEnv where
  lookup : String → Option GTool
  validateInput : String → JDict → ValOutcome
  validateOutput : String → JDict → ValOutcome
  policyCfg : PolicyConfig
  py : PyIntCoercion
  tool_version : String
  default_timeout_ms : Nat

/-- `context.get(k, "unknown")` for the identity keys; contexts used by the
drivers carry string ids. -/
def ctxGet (ctx : JDict) (k : String) : String :=
  match jget ctx k with
  | some (.jstr s) => s
  | _ => "unknown"

/-- `ToolGateway._err` (gateway.py lines 697-715). -/
def mkErr (tool_version tool_name request_id code message : String)
    (details : JDict) (latency_ms : Nat) (status : String) : ToolResult :=
  { status, tool_name, tool_version, request_id,
    data := [],
    error := some [("code", .jstr code), ("message", .jstr message),
                   ("details", .jdict details)],
    meta := [("latency_ms", .jint latency_ms), ("source", .jstr "gateway")] }

/-- What `run_tool` leaves behind: the returned envelope, the state the
durable store actually holds when the call returns (the single commit done
by `db_session.__exit__`), and the session's in-memory view including
writes made after the `with` block exited, which are flushed but never
committed. -/
structure RunToolOutcome where
  res : ToolResult
  committed : DBState
  session : DBState

/-- `ToolGateway.run_tool` (gateway.py lines 55-292).  The `with
db_session() as db:` block spans only lines 70-105 (the `tool_called`
event, the `started` ToolRun and the registry lookup); from input
validation (line 107) on, the source is dedented out of the block, so all
later `dbrepo` calls run on the closed session and are never committed.
The model keeps those writes in the `session` component and freezes
`committed` at the block exit.  Wall-clock sampling (`_ms_since`) is
modelled by the single `elapsed_ms` parameter; `request_id` (a `uuid4` in
the source) is a parameter. -/
def run_tool (env : GatewayEnv) (tool_name : String) (input_json context : JDict)
    (timeout_ms? : Option Nat) (validate_output : Bool)
    (request_id : String) (elapsed_ms : Nat) (db0 : DBState) : RunToolOutcome :=
  let timeout_ms := timeout_ms?.getD env.default_timeout_ms
  let profile_id := ctxGet context "profile_id"
  let session_id := ctxGet context "session_id"
  let db := log_event db0 profile_id session_id "tool_called"
      [("tool_name", .jstr tool_name), ("request_id", .jstr request_id)]
  let idAndDb := create_tool_run db profile_id session_id request_id tool_name
      input_json "started"
  let tool_run_id := idAndDb.1
  let db := idAndDb.2
  match env.lookup tool_name with
  | none =>
    let res := mkErr env.tool_version tool_name request_id ErrorCode.NOT_FOUND
        ("Unknown tool '" ++ tool_name ++ "'")
        [("error", .jstr ("Unknown tool '" ++ tool_name ++ "'. Did you call discover()?"))]
        elapsed_ms "error"
    let db := finalize_tool_run db tool_run_id res.status res.data
        (res.error.getD []) elapsed_ms
    let db := log_event db profile_id session_id "tool_failed"
        [("tool_name", .jstr tool_name), ("request_id", .jstr request_id),
         ("error", .jdict (res.error.getD []))]
    ⟨res, db, db⟩
  | some tool =>
    let committed := db
    let failed := fun (res : ToolResult) =>
      let db1 := finalize_tool_run db tool_run_id res.status res.data
          (res.error.getD []) elapsed_ms
      let db2 := log_event db1 profile_id session_id "tool_failed"
          [("tool_name", .jstr tool_name), ("request_id", .jstr request_id),
           ("error", .jdict (res.error.getD []))]
      RunToolOutcome.mk res committed db2
    match env.validateInput tool_name input_json with
    | .invalid msg path =>
      failed (mkErr env.tool_version tool_name request_id ErrorCode.VALIDATION_ERROR
        "Input validation failed"
        [("schema_id", .jnull), ("error", .jstr msg),
         ("path", .jlist (path.map .jstr))] elapsed_ms "error")
    | .loadErr msg =>
      failed (mkErr env.tool_version tool_name request_id ErrorCode.INTERNAL_ERROR
        "Failed to load/validate input schema" [("error", .jstr msg)]
        elapsed_ms "error")
    | .ok =>
      let decision := PolicyEngine.evaluate env.py env.policyCfg tool.spec
          input_json context
      match decision.decision with
      | .deny =>
        let res := mkErr env.tool_version tool_name request_id
            ErrorCode.POLICY_VIOLATION
            (decision.reason.getD "Policy denied tool execution")
            decision.details elapsed_ms "error"
        let db1 := finalize_tool_run db tool_run_id res.status res.data
            (res.error.getD []) elapsed_ms
        let db2 := log_event db1 profile_id session_id "policy_violation"
            [("tool_name", .jstr tool_name), ("request_id", .jstr request_id),
             ("details", .jdict decision.details)]
        ⟨res, committed, db2⟩
      | .require_approval =>
        let approval_payload : JDict :=
          [("tool_name", .jstr tool_name), ("mode", .jstr tool.spec.mode),
           ("reason", .jstr (decision.reason.getD "Approval required")),
           ("proposed_input", .jdict decision.sanitized_input)]
        let aidAndDb := create_approval db tool_run_id profile_id approval_payload
        let approval_id := aidAndDb.1
        let db1 := aidAndDb.2
        let res : ToolResult :=
          { status := "approval_required", tool_name,
            tool_version := env.tool_version, request_id,
            data := [("approval_request", .jdict approval_payload),
                     ("approval_id", .jint approval_id)],
            error := none,
            meta := [("latency_ms", .jint elapsed_ms),
                     ("timeout_ms", .jint timeout_ms),
                     ("source", .jstr "gateway")] }
        let db2 := finalize_tool_run db1 tool_run_id "approval_required"
            res.data [] elapsed_ms
        let db3 := log_event db2 profile_id session_id "approval_requested"
            [("tool_name", .jstr tool_name), ("request_id", .jstr request_id),
             ("approval_id", .jint approval_id)]
        ⟨res, committed, db3⟩
      | .allow =>
        match tool.fn decision.sanitized_input context with
        | .toolError code msg details =>
          failed (mkErr env.tool_version tool_name request_id code msg details
            elapsed_ms "error")
        | .exn msg =>
          failed (mkErr env.tool_version tool_name request_id
            ErrorCode.INTERNAL_ERROR "Tool execution failed"
            [("error", .jstr msg)] elapsed_ms "error")
        | .ok out =>
          if elapsed_ms > timeout_ms then
            failed (mkErr env.tool_version tool_name request_id ErrorCode.TIMEOUT
              ("Tool exceeded timeout (" ++ toString timeout_ms ++ "ms)")
              [("elapsed_ms", .jint elapsed_ms)] elapsed_ms "timeout")
          else
            let success :=
              let res : ToolResult :=
                { status := "ok", tool_name, tool_version := env.tool_version,
                  request_id, data := out, error := none,
                  meta := [("latency_ms", .jint elapsed_ms),
                           ("timeout_ms", .jint timeout_ms),
                           ("source", .jstr "gateway")] }
              let db1 := finalize_tool_run db tool_run_id "ok" out [] elapsed_ms
              let db2 := log_event db1 profile_id session_id "tool_succeeded"
                  [("tool_name", .jstr tool_name), ("request_id", .jstr request_id)]
              RunToolOutcome.mk res committed db2
            if validate_output then
              match env.validateOutput tool_name out with
              | .invalid msg path =>
                failed (mkErr env.tool_version tool_name request_id
                  ErrorCode.VALIDATION_ERROR "Output validation failed"
                  [("error", .jstr msg), ("path", .jlist (path.map .jstr))]
                  elapsed_ms "error")
              | .loadErr msg =>
                failed (mkErr env.tool_version tool_name request_id
                  ErrorCode.INTERNAL_ERROR "Failed to load/validate output schema"
                  [("error", .jstr msg)] elapsed_ms "error")
              | .ok => success
            else success

/-- Outcome of `run_approved`: either the call returns an envelope — the
`with` block exits normally and `db_session` commits every write made in
the call — or an uncaught exception propagates, `db_session` rolls the
transaction back, and the caller sees the exception.  `committed` is the
durable state in either case. -/
inductive RAOutcome where
  | returned (res : ToolResult) (committed : DBState)
  | raised (message : String) (committed : DBState)

/-- Partial model of Python `str()` for a value interpolated into gateway
messages; contexts written by `run_tool` always carry a string tool name. -/
def pyStrName : JVal → String
  | .jstr s => s
  | .jbool true => "True"
  | .jbool false => "False"
  | .jint n => toString n
  | .jnull => "None"
  | .jlist _ => "<list>"
  | .jdict _ => "<dict>"

/-- `self.registry.get(tool_name)` on the context's stored `tool_name`
value: the registry dict is keyed by strings, so a non-string key misses
and `get` raises `ToolRegistryError`. -/
def jlookup (env : GatewayEnv) (v : JVal) : Option GTool :=
  match v with
  | .jstr s => env.lookup s
  | _ => none

/-- The tail of `ToolGateway.run_approved` from the `pending → approved`
transition on (gateway.py lines 565-690): grant the approval, re-resolve
the tool, re-validate the stored input, re-run policy (deny still denies;
`require_approval` is executed), execute, soft-timeout check, output
validation, finalize the *referenced* ToolRun `tr_run_id`.  Unlike
`run_tool`, the whole body sits inside the `with db_session()` block, so a
returned envelope commits all writes; the two schema-validation `try`
blocks catch only `JsonSchemaValidationError` (lines 589, 666), so a
schema-load failure propagates and rolls back to `db0`. -/
def runApprovedExec (env : GatewayEnv) (approval_id : Nat) (context : JDict)
    (timeout_ms : Nat) (validate_output : Bool) (request_id : String)
    (elapsed_ms now : Nat) (profile_id session_id : String)
    (tr_run_id : Nat) (tool_name_v : JVal) (proposed_input : JDict)
    (db0 : DBState) : RAOutcome :=
  let tool_name := pyStrName tool_name_v
  let db := resolve_approval db0 approval_id "approved" now
  let db := log_event db profile_id session_id "approval_granted"
      [("approval_id", .jint approval_id), ("tool_name", tool_name_v)]
  let failed := fun (res : ToolResult) =>
    let db1 := finalize_tool_run db tr_run_id res.status res.data
        (res.error.getD []) elapsed_ms
    let db2 := log_event db1 profile_id session_id "tool_failed"
        [("tool_name", .jstr tool_name), ("approval_id", .jint approval_id),
         ("error", .jdict (res.error.getD []))]
    RAOutcome.returned res db2
  match jlookup env tool_name_v with
  | none =>
    failed (mkErr env.tool_version tool_name request_id ErrorCode.NOT_FOUND
      ("Unknown tool '" ++ tool_name ++ "'")
      [("error", .jstr ("Unknown tool '" ++ tool_name ++ "'. Did you call discover()?"))]
      elapsed_ms "error")
  | some tool =>
    match env.validateInput tool_name proposed_input with
    | .loadErr msg => .raised msg db0
    | .invalid msg path =>
      failed (mkErr env.tool_version tool_name request_id
        ErrorCode.VALIDATION_ERROR "Input validation failed (approved run)"
        [("error", .jstr msg), ("path", .jlist (path.map .jstr))]
        elapsed_ms "error")
    | .ok =>
      let decision := PolicyEngine.evaluate env.py env.policyCfg tool.spec
          proposed_input context
      if decision.decision = .deny then
        let res := mkErr env.tool_version tool_name request_id
            ErrorCode.POLICY_VIOLATION
            (decision.reason.getD "Policy denied approved execution")
            decision.details elapsed_ms "error"
        let db1 := finalize_tool_run db tr_run_id res.status res.data
            (res.error.getD []) elapsed_ms
        let db2 := log_event db1 profile_id session_id "policy_violation"
            [("tool_name", .jstr tool_name), ("approval_id", .jint approval_id),
             ("details", .jdict decision.details)]
        .returned res db2
      else
        match tool.fn decision.sanitized_input context with
        | .toolError code msg details =>
          failed (mkErr env.tool_version tool_name request_id code msg details
            elapsed_ms "error")
        | .exn msg =>
          failed (mkErr env.tool_version tool_name request_id
            ErrorCode.INTERNAL_ERROR "Tool execution failed (approved run)"
            [("error", .jstr msg)] elapsed_ms "error")
        | .ok out =>
          if elapsed_ms > timeout_ms then
            failed (mkErr env.tool_version tool_name request_id ErrorCode.TIMEOUT
              ("Tool exceeded timeout (" ++ toString timeout_ms ++ "ms)")
              [("elapsed_ms", .jint elapsed_ms)] elapsed_ms "timeout")
          else
            let success :=
              let res : ToolResult :=
                { status := "ok", tool_name, tool_version := env.tool_version,
                  request_id, data := out, error := none,
                  meta := [("latency_ms", .jint elapsed_ms),
                           ("timeout_ms", .jint timeout_ms),
                           ("source", .jstr "gateway")] }
              let db1 := finalize_tool_run db tr_run_id "ok" out [] elapsed_ms
              let db2 := log_event db1 profile_id session_id "tool_succeeded"
                  [("tool_name", .jstr tool_name), ("approval_id", .jint approval_id)]
              RAOutcome.returned res db2
            if validate_output then
              match env.validateOutput tool_name out with
              | .loadErr msg => .raised msg db0
              | .invalid msg path =>
                failed (mkErr env.tool_version tool_name request_id
                  ErrorCode.VALIDATION_ERROR "Output validation failed (approved run)"
                  [("error", .jstr msg), ("path", .jlist (path.map .jstr))]
                  elapsed_ms "error")
              | .ok => success
            else success

/-- Truthiness of the context's `tool_name` entry (`if not tool_name:`,
gateway.py line 555): absent, `None`, the empty string, and every other
falsy value are malformed. -/
def toolNameTruthy (v : Option JVal) : Bool :=
  match v with
  | some v => jtruthy v
  | none => false

/-- `approval_request.get("proposed_input", {})` (gateway.py line 553);
contexts written by `run_tool` always store a dict under this key. -/
def proposedInputOf (approval_request : JDict) : JDict :=
  match jget approval_request "proposed_input" with
  | some (.jdict d) => d
  | _ => []

/-- `ToolGateway.run_approved` (the second definition, gateway.py lines
501-690, which shadows the behaviourally-identical first one at lines
294-485): state-machine gate then `runApprovedExec`.  The four early
returns happen before any write, so they commit nothing new. -/
def run_approved (env : GatewayEnv) (approval_id : Nat) (context : JDict)
    (timeout_ms? : Option Nat) (validate_output : Bool) (request_id : String)
    (elapsed_ms now : Nat) (db0 : DBState) : RAOutcome :=
  let timeout_ms := timeout_ms?.getD env.default_timeout_ms
  let profile_id := ctxGet context "profile_id"
  let session_id := ctxGet context "session_id"
  match get_approval db0 approval_id with
  | none =>
    .returned (mkErr env.tool_version "approval.resolve" request_id
      ErrorCode.NOT_FOUND "Approval not found"
      [("approval_id", .jint approval_id)] elapsed_ms "error") db0
  | some ap =>
    if ap.status ≠ "pending" then
      .returned (mkErr env.tool_version "approval.resolve" request_id
        ErrorCode.POLICY_VIOLATION "Approval is not pending"
        [("approval_id", .jint approval_id), ("status", .jstr ap.status)]
        elapsed_ms "error") db0
    else
      match get_tool_run db0 ap.tool_run_id with
      | none =>
        .returned (mkErr env.tool_version "approval.resolve" request_id
          ErrorCode.NOT_FOUND "Tool run for approval not found"
          [("approval_id", .jint approval_id),
           ("tool_run_id", .jint ap.tool_run_id)] elapsed_ms "error") db0
      | some tr =>
        let approval_request := ap.approval_context_json
        let tool_name_v := jget approval_request "tool_name"
        let proposed_input := proposedInputOf approval_request
        if ¬ toolNameTruthy tool_name_v then
          .returned (mkErr env.tool_version "approval.resolve" request_id
            ErrorCode.INTERNAL_ERROR "Malformed approval context (missing tool_name)"
            [("approval_id", .jint approval_id)] elapsed_ms "error") db0
        else
          runApprovedExec env approval_id context timeout_ms validate_output
            request_id elapsed_ms now profile_id session_id tr.tool_run_id
            (tool_name_v.getD .jnull) proposed_input db0

/-! ## Tool registry (src/packages/platform/registry/registry.py)

Discovery runs over a filesystem snapshot: the glob result
`tools_root.glob("*/manifest.json")` is modelled as the list `manifests`
of (tool directory, parsed manifest) pairs, schema-file existence as a
predicate on joined paths, and `importlib` handler resolution as a
predicate on handler strings.  `ToolRegistryError`s abort discovery by
propagating; mutations of `self._tools` made before the error remain, as
in the source. -/

/-- One entry of a manifest's `tools` list.  The mandatory-key accesses
`t["name"]`, `t["mode"]`, `t["handler"]`, `t["schemas"]["input"]` are
modelled as present fields (a missing key raises and aborts discovery the
same way every registration error does). -/
structure RManifestTool where
  name : String
  mode : String
  handler : String
  description : String
  input_rel : String
  output_rel : Option String
  deriving Repr, DecidableEq

/-- A parsed `manifest.json`.  `package = ""` models a missing or falsy
`package`; `tools = []` a missing, empty (or, collapsed here, non-list)
`tools` — exactly the conditions of the `Invalid manifest format` check. -/
structure RManifest where
  package : String
  tools : List RManifestTool
  deriving Repr, DecidableEq

/-- The discovery environment: filesystem and import system. -/
structure RegEnv where
  rootExists : Bool
  manifests : List (String × RManifest)
  schemaExists : String → Bool
  resolveHandler : String → Bool

/-- `self._tools`: the registry's mutable name-keyed map, insertion
ordered. -/
abbrev Registry := List (String × ToolSpec)

/-- `name in self._tools`. -/
def containsName (reg : Registry) (name : String) : Bool :=
  (reg.find? fun e => e.1 = name).isSome

/-- The body of the per-tool loop of `_register_from_manifest`
(registry.py lines 62-98) for one tool: resolve schema paths, check their
existence, build the spec, import the handler (`_import_handler`, lines
15-27), check for a duplicate name, insert.  Returns the mutated map and
`some message` when a `ToolRegistryError` is raised. -/
def registerTool (env : RegEnv) (tool_dir manifest_path : String)
    (reg : Registry) (t : RManifestTool) : Registry × Option String :=
  let input_schema_path := tool_dir ++ "/" ++ t.input_rel
  let output_schema_path := t.output_rel.map fun r => tool_dir ++ "/" ++ r
  if ¬ env.schemaExists input_schema_path then
    (reg, some ("Missing input schema for " ++ t.name ++ ": " ++ input_schema_path))
  else if (match output_schema_path with
           | some p => !env.schemaExists p
           | none => false) then
    (reg, some ("Missing output schema for " ++ t.name ++ ": "
      ++ (output_schema_path.getD "")))
  else if ¬ t.handler.toList.contains ':' then
    (reg, some ("Invalid handler '" ++ t.handler ++ "'. Expected 'module:callable'."))
  else if ¬ env.resolveHandler t.handler then
    (reg, some ("Handler '" ++ t.handler ++ "' not found."))
  else if containsName reg t.name then
    (reg, some ("Duplicate tool name '" ++ t.name ++ "' from " ++ manifest_path))
  else
    (reg ++ [(t.name,
      { name := t.name, mode := t.mode, handler := t.handler,
        input_schema_path, output_schema_path, description := t.description })],
     none)

/-- The `for t in tools:` loop, stopping at the first raised error and
keeping the mutations made so far. -/
def registerTools (env : RegEnv) (tool_dir manifest_path : String)
    (reg : Registry) : List RManifestTool → Registry × Option String
  | [] => (reg, none)
  | t :: ts =>
    match registerTool env tool_dir manifest_path reg t with
    | (reg', none) => registerTools env tool_dir manifest_path reg' ts
    | (reg', some e) => (reg', some e)

/-- `ToolRegistry._register_from_manifest` (registry.py lines 52-98). -/
def registerFromManifest (env : RegEnv) (tool_dir : String) (reg : Registry)
    (mf : RManifest) : Registry × Option String :=
  let manifest_path := tool_dir ++ "/manifest.json"
  if mf.package = "" ∨ mf.tools = [] then
    (reg, some ("Invalid manifest format: " ++ manifest_path))
  else
    registerTools env tool_dir manifest_path reg mf.tools

/-- The `for manifest_path in manifests:` loop of `discover`. -/
def discoverLoop (env : RegEnv) (reg : Registry) :
    List (String × RManifest) → Registry × Option String
  | [] => (reg, none)
  | (dir, mf) :: ms =>
    match registerFromManifest env dir reg mf with
    | (reg', none) => discoverLoop env reg' ms
    | (reg', some e) => (reg', some e)

/-- `ToolRegistry.discover` (registry.py lines 44-50): check the tools
root, then register every manifest; errors propagate, leaving `self._tools`
as the loop left it. -/
def discover (env : RegEnv) (reg : Registry) : Registry × Option String :=
  if ¬ env.rootExists then
    (reg, some "Tools root does not exist")
  else
    discoverLoop env reg env.manifests

/-! ## Observation helpers -/

/-- The durable state a `run_approved` call leaves behind, whether it
returned or raised. -/
def raCommitted : RAOutcome → DBState
  | .returned _ db => db
  | .raised _ db => db

/-- Whether a `run_approved` call returned an envelope (as opposed to
letting an exception propagate). -/
def raReturned : RAOutcome → Bool
  | .returned _ _ => true
  | .raised _ _ => false

/-- The envelope of a `run_approved` call, when it returned one. -/
def raResult : RAOutcome → Option ToolResult
  | .returned res _ => some res
  | .raised _ _ => none

/-- Whether the store holds at least one event of the given type. -/
def hasEvent (db : DBState) (event_type : String) : Bool :=
  db.events.any fun e => e.event_type = event_type

/-! ## Dictionary lemmas -/

theorem jget_jset_self (d : JDict) (k : String) (v : JVal) :
    jget (jset d k v) k = some v := by
  induction d with
  | nil => simp [jset, jget]
  | cons hd tl ih =>
    obtain ⟨a, b⟩ := hd
    by_cases h : a = k
    · simp [jset, jget, h]
    · simp [jset, jget, h, ih]

theorem jget_jset_ne (d : JDict) (k k' : String) (v : JVal) (h : k' ≠ k) :
    jget (jset d k v) k' = jget d k' := by
  have hkk : ¬ (k = k') := fun hh => h hh.symm
  induction d with
  | nil => simp [jset, jget, hkk]
  | cons hd tl ih =>
    obtain ⟨a, b⟩ := hd
    by_cases hk : a = k
    · have h1 : ¬ (a = k') := by rw [hk]; exact hkk
      simp [jset, jget, hk, hkk, h1]
    · by_cases hk' : a = k'
      · simp [jset, jget, hk, hk', h]
      · simp [jset, jget, hk, hk', ih]

/-! ## Store lemmas -/

theorem approvals_log_event (db : DBState) (p s t : String) (pl : JDict) :
    (log_event db p s t pl).approvals = db.approvals := rfl

theorem approvals_finalize (db : DBState) (i : Nat) (st : String)
    (o e : JDict) (l : Nat) :
    (finalize_tool_run db i st o e l).approvals = db.approvals := rfl

theorem tool_runs_log_event (db : DBState) (p s t : String) (pl : JDict) :
    (log_event db p s t pl).tool_runs = db.tool_runs := rfl

theorem tool_runs_resolve (db : DBState) (aid : Nat) (st : String) (now : Nat) :
    (resolve_approval db aid st now).tool_runs = db.tool_runs := rfl

theorem find_resolve_approvals (l : List ApprovalRow) (aid : Nat) (st : String)
    (now : Nat) (ap : ApprovalRow)
    (h : l.find? (fun a => a.approval_id = aid) = some ap) :
    (l.map fun a =>
        if a.approval_id = aid then { a with status := st, ts_resolved := some now }
        else a).find? (fun a => a.approval_id = aid) =
      some { ap with status := st, ts_resolved := some now } := by
  induction l with
  | nil => simp [List.find?] at h
  | cons hd tl ih =>
    by_cases hh : hd.approval_id = aid
    · simp [List.find?, hh] at h
      subst h
      simp [List.find?, hh]
    · simp [List.find?, hh, -List.find?_map] at h ⊢
      exact ih h

theorem get_approval_resolve (db : DBState) (aid : Nat) (st : String)
    (now : Nat) (ap : ApprovalRow) (h : get_approval db aid = some ap) :
    get_approval (resolve_approval db aid st now) aid =
      some { ap with status := st, ts_resolved := some now } :=
  find_resolve_approvals db.approvals aid st now ap h

theorem find_finalize_tool_runs (l : List ToolRunRow) (i : Nat) (st : String)
    (o e : JDict) (lat : Nat) (tr : ToolRunRow)
    (h : l.find? (fun r => r.tool_run_id = i) = some tr) :
    (l.map fun r =>
        if r.tool_run_id = i then
          { r with status := st, output_json := o, error_json := e, latency_ms := lat }
        else r).find? (fun r => r.tool_run_id = i) =
      some { tr with status := st, output_json := o, error_json := e, latency_ms := lat } := by
  induction l with
  | nil => simp [List.find?] at h
  | cons hd tl ih =>
    by_cases hh : hd.tool_run_id = i
    · simp [List.find?, hh] at h
      subst h
      simp [List.find?, hh]
    · simp [List.find?, hh, -List.find?_map] at h ⊢
      exact ih h

/-! ## Concrete fixtures (the spec's boundary scenarios S1-S4) -/

/-- A concrete `int(...)` model: exact on ints, failing elsewhere. -/
def py0 : PyIntCoercion :=
  ⟨fun v => match v with | .jint n => some n | _ => none, fun _ => rfl⟩

/-- The policy configuration of scenarios S2-S4:
`allowed_rooms=["Kitchen"], max_volume=40`. -/
def cfg0 : PolicyConfig :=
  { timezone := "America/Chicago",
    execution := { default_mode := "read_only",
                   approvals_required_for := ["execute_gated"] },
    github := none,
    sonos := some { allowed_rooms := ["Kitchen"], max_volume := 40,
                    quiet_hours_enabled := false } }

def calSpec : ToolSpec :=
  { name := "calendar.google.get_agenda", mode := "read_only",
    handler := "packages.tools.calendar.tool:get_agenda",
    input_schema_path := "packages/tools/calendar/schema.input.json",
    output_schema_path := none }

def sonosSpec : ToolSpec :=
  { name := "sonos.play", mode := "execute_gated",
    handler := "packages.tools.sonos.tool:play",
    input_schema_path := "packages/tools/sonos/schema.input.json",
    output_schema_path := none }

def calTool : GTool :=
  ⟨calSpec, fun _ _ => .ok [("events", .jlist []), ("warnings", .jlist [])]⟩

def sonosTool : GTool := ⟨sonosSpec, fun _ _ => .ok [("played", .jbool true)]⟩

/-- A discovered gateway environment with permissive schemas. -/
def env0 : GatewayEnv :=
  { lookup := fun n =>
      if n = "calendar.google.get_agenda" then some calTool
      else if n = "sonos.play" then some sonosTool
      else none,
    validateInput := fun _ _ => .ok,
    validateOutput := fun _ _ => .ok,
    policyCfg := cfg0,
    py := py0,
    tool_version := "v0.1",
    default_timeout_ms := 10000 }

def devCtx : JDict := [("profile_id", .jstr "dev"), ("session_id", .jstr "dev")]

def dbEmpty : DBState := ⟨[], [], [], 0⟩

/-! ## Policy theorems -/

/-- Claim C5: `PolicyEngine.evaluate` branches on `spec.mode`: `read_only`
allows with the input unchanged; `draft` without a `github.pr.` prefix
allows; `execute_gated` without a `sonos.` prefix requires approval with
reason `"execute_gated tool requires approval"`; any other mode denies
with reason `"Unknown tool mode '{mode}'"`. -/
theorem evaluate_mode_dispatch (py : PyIntCoercion) (cfg : PolicyConfig)
    (spec : ToolSpec) (input ctx : JDict) :
    (spec.mode = "read_only" →
      PolicyEngine.evaluate py cfg spec input ctx =
        { decision := .allow, sanitized_input := input }) ∧
    (spec.mode = "draft" → ¬ strStartsWith spec.name "github.pr." →
      PolicyEngine.evaluate py cfg spec input ctx =
        { decision := .allow, sanitized_input := input }) ∧
    (spec.mode = "execute_gated" → ¬ strStartsWith spec.name "sonos." →
      PolicyEngine.evaluate py cfg spec input ctx =
        { decision := .require_approval, sanitized_input := input,
          reason := some "execute_gated tool requires approval" }) ∧
    (spec.mode ≠ "read_only" → spec.mode ≠ "draft" → spec.mode ≠ "execute_gated" →
      PolicyEngine.evaluate py cfg spec input ctx =
        { decision := .deny, sanitized_input := input,
          reason := some ("Unknown tool mode '" ++ spec.mode ++ "'"),
          details := [("tool", .jstr spec.name), ("mode", .jstr spec.mode)] }) := by
  refine ⟨?_, ?_, ?_, ?_⟩
  · intro h
    simp [PolicyEngine.evaluate, h]
  · intro h hgh
    simp [PolicyEngine.evaluate, h, hgh]
  · intro h hs
    simp [PolicyEngine.evaluate, h, hs]
  · intro h1 h2 h3
    simp [PolicyEngine.evaluate, h1, h2, h3]

/-- Closed witness for C5, at the four concrete specs of the repository's
smoke scenarios. -/
theorem evaluate_mode_dispatch_witness :
    (PolicyEngine.evaluate py0 cfg0 calSpec devCtx [] =
      { decision := .allow, sanitized_input := devCtx }) ∧
    (PolicyEngine.evaluate py0 cfg0
        { calSpec with name := "email.send_draft", mode := "draft" } devCtx [] =
      { decision := .allow, sanitized_input := devCtx }) ∧
    (PolicyEngine.evaluate py0 cfg0
        { calSpec with name := "shell.exec", mode := "execute_gated" } devCtx [] =
      { decision := .require_approval, sanitized_input := devCtx,
        reason := some "execute_gated tool requires approval" }) ∧
    (PolicyEngine.evaluate py0 cfg0
        { calSpec with mode := "admin" } devCtx [] =
      { decision := .deny, sanitized_input := devCtx,
        reason := some ("Unknown tool mode '" ++ "admin" ++ "'"),
        details := [("tool", .jstr calSpec.name), ("mode", .jstr "admin")] }) :=
  ⟨(evaluate_mode_dispatch py0 cfg0 calSpec devCtx []).1 (by decide),
   (evaluate_mode_dispatch py0 cfg0
      { calSpec with name := "email.send_draft", mode := "draft" } devCtx []).2.1
      (by decide) (by decide),
   (evaluate_mode_dispatch py0 cfg0
      { calSpec with name := "shell.exec", mode := "execute_gated" } devCtx []).2.2.1
      (by decide) (by decide),
   (evaluate_mode_dispatch py0 cfg0 { calSpec with mode := "admin" } devCtx []).2.2.2
      (by decide) (by decide) (by decide)⟩

/-- Claim C6: `_eval_sonos` on an allowlisted (or absent) room and a present
non-null volume: non-coercible volume denies with `"Invalid volume type"`;
a value above `max_volume` requires approval with the volume capped in the
sanitized input; otherwise approval is required with the input unchanged. -/
theorem sonos_volume_policy (py : PyIntCoercion) (cfg : PolicyConfig)
    (spec : ToolSpec) (input ctx : JDict) (s : SonosPolicy) (v : JVal)
    (hmode : spec.mode = "execute_gated")
    (hname : strStartsWith spec.name "sonos." = true)
    (hs : cfg.sonos = some s)
    (hroom : roomNotAllowed (jget input "room") s.allowed_rooms = false)
    (hv : jget input "volume" = some v) (hvn : v.isNull = false) :
    (py.toIntFn v = none →
      PolicyEngine.evaluate py cfg spec input ctx =
        { decision := .deny, sanitized_input := input,
          reason := some "Invalid volume type", details := [("volume", v)] }) ∧
    (∀ n : Int, py.toIntFn v = some n → n > s.max_volume →
      PolicyEngine.evaluate py cfg spec input ctx =
        { decision := .require_approval,
          sanitized_input := jset input "volume" (.jint s.max_volume),
          reason := some "Requested volume exceeds cap; capped and requires approval",
          details := [("requested", .jint n), ("capped_to", .jint s.max_volume)] }) ∧
    (∀ n : Int, py.toIntFn v = some n → ¬ n > s.max_volume →
      PolicyEngine.evaluate py cfg spec input ctx =
        { decision := .require_approval, sanitized_input := input,
          reason := some "Sonos actions require approval" }) := by
  have hbase : PolicyEngine.evaluate py cfg spec input ctx =
      evalSonos py cfg input := by
    simp [PolicyEngine.evaluate, hmode, hname]
  refine ⟨?_, ?_, ?_⟩
  · intro hint
    rw [hbase]
    unfold evalSonos
    rw [hs]
    simp only [hroom, Bool.false_eq_true, if_false]
    rw [hv]
    cases v <;> simp_all [evalSonos, JVal.isNull]
  · intro n hint hgt
    rw [hbase]
    unfold evalSonos
    rw [hs]
    simp only [hroom, Bool.false_eq_true, if_false]
    rw [hv]
    cases v <;> simp_all [evalSonos, JVal.isNull]
  · intro n hint hle
    rw [hbase]
    unfold evalSonos
    rw [hs]
    simp only [hroom, Bool.false_eq_true, if_false]
    rw [hv]
    cases v <;> simp_all [evalSonos, JVal.isNull]

/-- Closed witness for C6 at the spec's S3 scenario (`volume=80`, cap 40)
plus the unchanged (`volume=30`) and non-coercible (`volume="loud"`)
variants. -/
theorem sonos_volume_policy_witness :
    (PolicyEngine.evaluate py0 cfg0 sonosSpec
        [("room", .jstr "Kitchen"), ("volume", .jstr "loud")] [] =
      { decision := .deny,
        sanitized_input := [("room", .jstr "Kitchen"), ("volume", .jstr "loud")],
        reason := some "Invalid volume type",
        details := [("volume", .jstr "loud")] }) ∧
    (PolicyEngine.evaluate py0 cfg0 sonosSpec
        [("room", .jstr "Kitchen"), ("volume", .jint 80)] [] =
      { decision := .require_approval,
        sanitized_input := jset [("room", .jstr "Kitchen"), ("volume", .jint 80)]
          "volume" (.jint 40),
        reason := some "Requested volume exceeds cap; capped and requires approval",
        details := [("requested", .jint 80), ("capped_to", .jint 40)] }) ∧
    (PolicyEngine.evaluate py0 cfg0 sonosSpec
        [("room", .jstr "Kitchen"), ("volume", .jint 30)] [] =
      { decision := .require_approval,
        sanitized_input := [("room", .jstr "Kitchen"), ("volume", .jint 30)],
        reason := some "Sonos actions require approval" }) :=
  ⟨(sonos_volume_policy py0 cfg0 sonosSpec
      [("room", .jstr "Kitchen"), ("volume", .jstr "loud")] []
      { allowed_rooms := ["Kitchen"], max_volume := 40, quiet_hours_enabled := false }
      (.jstr "loud") (by decide) (by decide) rfl (by decide) rfl (by decide)).1 rfl,
   ((sonos_volume_policy py0 cfg0 sonosSpec
      [("room", .jstr "Kitchen"), ("volume", .jint 80)] []
      { allowed_rooms := ["Kitchen"], max_volume := 40, quiet_hours_enabled := false }
      (.jint 80) (by decide) (by decide) rfl (by decide) rfl (by decide)).2.1 80
      rfl (by decide)),
   ((sonos_volume_policy py0 cfg0 sonosSpec
      [("room", .jstr "Kitchen"), ("volume", .jint 30)] []
      { allowed_rooms := ["Kitchen"], max_volume := 40, quiet_hours_enabled := false }
      (.jint 30) (by decide) (by decide) rfl (by decide) rfl (by decide)).2.2 30
      rfl (by decide))⟩

theorem evalGithubPr_sanitized_idem (cfg : PolicyConfig) (input : JDict)
    (h : (evalGithubPr cfg input).decision ≠ .deny) :
    (evalGithubPr cfg (evalGithubPr cfg input).sanitized_input).sanitized_input
      = (evalGithubPr cfg input).sanitized_input := by
  match hgh : cfg.github with
  | none => simp [evalGithubPr, hgh] at h
  | some gh =>
    by_cases hrepo : repoAllowed (jget input "repo") gh.allowed_repos = true
    · by_cases hdo : (gh.draft_only && !draftIsTrue input) = true
      · have hrepo2 : repoAllowed (jget (jset input "draft" (.jbool true)) "repo")
            gh.allowed_repos = true := by
          rw [jget_jset_ne input "draft" "repo" _ (by decide)]
          exact hrepo
        have hdt : draftIsTrue (jset input "draft" (.jbool true)) = true := by
          simp [draftIsTrue, jget_jset_self]
        have houter : evalGithubPr cfg input =
            { decision := .allow,
              sanitized_input := jset input "draft" (.jbool true),
              reason := some "Enforced draft-only PR creation",
              details := [("repo", optJ (jget input "repo"))] } := by
          simp [evalGithubPr, hgh, hrepo, hdo]
        have hinner : evalGithubPr cfg (jset input "draft" (.jbool true)) =
            { decision := .allow,
              sanitized_input := jset input "draft" (.jbool true) } := by
          simp [evalGithubPr, hgh, hrepo2, hdt]
        simp [houter, hinner]
      · have houter : evalGithubPr cfg input =
            { decision := .allow, sanitized_input := input } := by
          simp [evalGithubPr, hgh, hrepo, hdo]
        simp [houter]
    · simp [evalGithubPr, hgh, hrepo] at h

theorem evalSonos_sanitized_idem (py : PyIntCoercion) (cfg : PolicyConfig)
    (input : JDict)
    (h : (evalSonos py cfg input).decision ≠ .deny) :
    (evalSonos py cfg (evalSonos py cfg input).sanitized_input).sanitized_input
      = (evalSonos py cfg input).sanitized_input := by
  match hs : cfg.sonos with
  | none => simp [evalSonos, hs] at h
  | some s =>
    by_cases hroom : roomNotAllowed (jget input "room") s.allowed_rooms = true
    · simp [evalSonos, hs, hroom] at h
    · have hroomf : roomNotAllowed (jget input "room") s.allowed_rooms = false := by
        simpa using hroom
      match hv : jget input "volume" with
      | none =>
        have houter : evalSonos py cfg input =
            { decision := .require_approval, sanitized_input := input,
              reason := some "Sonos actions require approval" } := by
          simp [evalSonos, hs, hroomf, hv]
        simp [houter]
      | some v =>
        by_cases hnull : v.isNull = true
        · have houter : evalSonos py cfg input =
              { decision := .require_approval, sanitized_input := input,
                reason := some "Sonos actions require approval" } := by
            simp [evalSonos, hs, hroomf, hv, hnull]
          simp [houter]
        · have hnf : v.isNull = false := by simpa using hnull
          match hint : py.toIntFn v with
          | none => simp [evalSonos, hs, hroomf, hv, hnf, hint] at h
          | some n =>
            by_cases hgt : n > s.max_volume
            · have h1 : jget (jset input "volume" (.jint s.max_volume)) "room"
                  = jget input "room" :=
                jget_jset_ne input "volume" "room" _ (by decide)
              have h2 : jget (jset input "volume" (.jint s.max_volume)) "volume"
                  = some (.jint s.max_volume) :=
                jget_jset_self input "volume" _
              have houter : evalSonos py cfg input =
                  { decision := .require_approval,
                    sanitized_input := jset input "volume" (.jint s.max_volume),
                    reason := some "Requested volume exceeds cap; capped and requires approval",
                    details := [("requested", .jint n),
                                ("capped_to", .jint s.max_volume)] } := by
                simp [evalSonos, hs, hroomf, hv, hnf, hint, hgt]
              have hinner : evalSonos py cfg (jset input "volume" (.jint s.max_volume)) =
                  { decision := .require_approval,
                    sanitized_input := jset input "volume" (.jint s.max_volume),
                    reason := some "Sonos actions require approval" } := by
                simp [evalSonos, hs, h1, hroomf, h2, JVal.isNull, py.int_refl]
              simp [houter, hinner]
            · have houter : evalSonos py cfg input =
                  { decision := .require_approval, sanitized_input := input,
                    reason := some "Sonos actions require approval" } := by
                simp [evalSonos, hs, hroomf, hv, hnf, hint, hgt]
              simp [houter]

/-- Claim C9: policy sanitization is idempotent.  When
`evaluate(spec, input, ctx)` does not deny, evaluating again on the
returned `sanitized_input` returns that same `sanitized_input`. -/
theorem evaluate_sanitize_idempotent (py : PyIntCoercion) (cfg : PolicyConfig)
    (spec : ToolSpec) (input ctx : JDict)
    (h : (PolicyEngine.evaluate py cfg spec input ctx).decision ≠ .deny) :
    (PolicyEngine.evaluate py cfg spec
        (PolicyEngine.evaluate py cfg spec input ctx).sanitized_input
        ctx).sanitized_input
      = (PolicyEngine.evaluate py cfg spec input ctx).sanitized_input := by
  by_cases h1 : spec.mode = "read_only"
  · simp [PolicyEngine.evaluate, h1]
  · by_cases h2 : spec.mode = "draft"
    · by_cases h3 : strStartsWith spec.name "github.pr."
      · have hred : PolicyEngine.evaluate py cfg spec input ctx
            = evalGithubPr cfg input := by
          simp [PolicyEngine.evaluate, h1, h2, h3]
        have hred2 : PolicyEngine.evaluate py cfg spec
            (evalGithubPr cfg input).sanitized_input ctx
            = evalGithubPr cfg (evalGithubPr cfg input).sanitized_input := by
          simp [PolicyEngine.evaluate, h1, h2, h3]
        rw [hred] at h ⊢
        rw [hred2]
        exact evalGithubPr_sanitized_idem cfg input h
      · simp [PolicyEngine.evaluate, h1, h2, h3]
    · by_cases h4 : spec.mode = "execute_gated"
      · by_cases h5 : strStartsWith spec.name "sonos."
        · have hred : PolicyEngine.evaluate py cfg spec input ctx
              = evalSonos py cfg input := by
            simp [PolicyEngine.evaluate, h1, h2, h4, h5]
          have hred2 : PolicyEngine.evaluate py cfg spec
              (evalSonos py cfg input).sanitized_input ctx
              = evalSonos py cfg (evalSonos py cfg input).sanitized_input := by
            simp [PolicyEngine.evaluate, h1, h2, h4, h5]
          rw [hred] at h ⊢
          rw [hred2]
          exact evalSonos_sanitized_idem py cfg input h
        · simp [PolicyEngine.evaluate, h1, h2, h4, h5]
      · simp [PolicyEngine.evaluate, h1, h2, h4] at h

/-- Closed witness for C9, at the volume-capping scenario S3 (the one
branch where sanitization actually rewrites the input). -/
theorem evaluate_sanitize_idempotent_witness :
    (PolicyEngine.evaluate py0 cfg0 sonosSpec
        [("room", .jstr "Kitchen"), ("volume", .jint 80)] devCtx).decision ≠ .deny ∧
    (PolicyEngine.evaluate py0 cfg0 sonosSpec
        (PolicyEngine.evaluate py0 cfg0 sonosSpec
          [("room", .jstr "Kitchen"), ("volume", .jint 80)] devCtx).sanitized_input
        devCtx).sanitized_input
      = (PolicyEngine.evaluate py0 cfg0 sonosSpec
          [("room", .jstr "Kitchen"), ("volume", .jint 80)] devCtx).sanitized_input :=
  ⟨by decide,
   evaluate_sanitize_idempotent py0 cfg0 sonosSpec
     [("room", .jstr "Kitchen"), ("volume", .jint 80)] devCtx (by decide)⟩

/-! ## Registry theorems (claim C4) -/

/-- A valid manifest tool, as in the repository's calendar package. -/
def regTool1 : RManifestTool :=
  { name := "calendar.google.get_agenda", mode := "read_only",
    handler := "packages.tools.calendar.tool:get_agenda",
    description := "", input_rel := "schema.input.json", output_rel := none }

/-- A one-manifest tree on which discovery succeeds. -/
def regEnv1 : RegEnv :=
  { rootExists := true,
    manifests := [("packages/tools/calendar",
      { package := "calendar", tools := [regTool1] })],
    schemaExists := fun _ => true,
    resolveHandler := fun _ => true }

/-- A two-manifest tree whose second manifest is invalid. -/
def regEnv2 : RegEnv :=
  { rootExists := true,
    manifests := [("packages/tools/calendar",
      { package := "calendar", tools := [regTool1] }),
      ("packages/tools/broken", { package := "", tools := [regTool1] })],
    schemaExists := fun _ => true,
    resolveHandler := fun _ => true }

/-- Claim C4 counterexample: on a concrete one-manifest tree a first
`discover` succeeds, but a second `discover` on the same tree raises a
duplicate-name `ToolRegistryError` instead of succeeding idempotently. -/
theorem discover_not_idempotent_cex :
    (discover regEnv1 []).2 = none ∧
    (discover regEnv1 (discover regEnv1 []).1).2 ≠ none := by
  constructor
  · rfl
  · decide

/-- Claim C4, amended: `discover()` is not idempotent and does not restore
the pre-call state on failure.  A second `discover()` over a tree whose
first manifest is valid, schema-resolvable and handler-resolvable fails
with a duplicate-name error on that manifest's first tool (the map is left
unchanged by that particular failure); and a `discover()` that fails on a
later manifest keeps every registration made before the failure, so a
failing call does not restore the registry to its pre-call state. -/
theorem discover_rerun_fails_and_keeps_partial_state
    (env : RegEnv) (reg : Registry) (dir : String) (mf : RManifest)
    (rest : List (String × RManifest)) (t : RManifestTool) (ts : List RManifestTool)
    (hroot : env.rootExists = true)
    (hms : env.manifests = (dir, mf) :: rest)
    (hpkg : mf.package ≠ "")
    (htools : mf.tools = t :: ts)
    (hin : env.schemaExists (dir ++ "/" ++ t.input_rel) = true)
    (hout : (match t.output_rel.map (fun r => dir ++ "/" ++ r) with
             | some p => !env.schemaExists p
             | none => false) = false)
    (hcolon : t.handler.toList.contains ':' = true)
    (hres : env.resolveHandler t.handler = true)
    (hdup : containsName reg t.name = true)
    (env₂ : RegEnv) (reg₂ reg₂' : Registry) (dir₁ dir₂ : String)
    (mf₁ mf₂ : RManifest)
    (hroot₂ : env₂.rootExists = true)
    (hms₂ : env₂.manifests = [(dir₁, mf₁), (dir₂, mf₂)])
    (h1 : registerFromManifest env₂ dir₁ reg₂ mf₁ = (reg₂', none))
    (hne : reg₂' ≠ reg₂)
    (hpkg₂ : mf₂.package = "") :
    discover env reg =
      (reg, some ("Duplicate tool name '" ++ t.name ++ "' from "
        ++ (dir ++ "/manifest.json"))) ∧
    (discover env₂ reg₂ =
      (reg₂', some ("Invalid manifest format: " ++ (dir₂ ++ "/manifest.json"))) ∧
     (discover env₂ reg₂).1 ≠ reg₂) := by
  have hcolon' : ':' ∈ t.handler.data := by
    simpa using hcolon
  have hpart2 : discover env₂ reg₂ =
      (reg₂', some ("Invalid manifest format: " ++ (dir₂ ++ "/manifest.json"))) := by
    simp only [discover, hroot₂, hms₂, discoverLoop, Bool.not_true,
      Bool.false_eq_true, not_false_eq_true, if_true]
    rw [h1]
    simp [discoverLoop, registerFromManifest, hpkg₂]
  refine ⟨?_, hpart2, ?_⟩
  · simp [discover, hroot, hms, discoverLoop, registerFromManifest, hpkg, htools,
          registerTools, registerTool, hin, hout, hcolon', hres, hdup]
  · rw [hpart2]
    exact hne

/-- Closed witness for the amended C4, at the concrete trees `regEnv1`
(re-discovered) and `regEnv2` (partial failure). -/
theorem discover_rerun_fails_witness :
    (discover regEnv1 (discover regEnv1 []).1 =
      ((discover regEnv1 []).1, some ("Duplicate tool name '" ++ regTool1.name
        ++ "' from " ++ ("packages/tools/calendar" ++ "/manifest.json"))) ∧
    (discover regEnv2 [] =
      ((discover regEnv1 []).1,
       some ("Invalid manifest format: "
         ++ ("packages/tools/broken" ++ "/manifest.json"))) ∧
     (discover regEnv2 []).1 ≠ [])) :=
  discover_rerun_fails_and_keeps_partial_state regEnv1 (discover regEnv1 []).1
    "packages/tools/calendar" { package := "calendar", tools := [regTool1] } []
    regTool1 []
    rfl rfl (by decide) rfl rfl rfl (by decide) rfl (by decide)
    regEnv2 [] (discover regEnv1 []).1 "packages/tools/calendar"
    "packages/tools/broken"
    { package := "calendar", tools := [regTool1] } { package := "", tools := [regTool1] }
    rfl rfl rfl (by decide) rfl

/-! ## Gateway theorems: the lost-commit defect in `run_tool`
(claims C1, C2, C7)

In the source, the `with db_session() as db:` block of `run_tool` covers
only gateway.py lines 71-105; the code from line 107 on is dedented out of
the block, so every `dbrepo.finalize_tool_run`, `dbrepo.create_approval`
and `dbrepo.log_event` call on those paths runs on the session after
`db_session.__exit__` has already committed and closed it — nothing ever
commits those writes.  The theorems below evaluate the model at the spec's
own boundary scenarios S1, S2, S4 and compare the returned envelope, the
committed store and the session view. -/

/-- Scenario S1: a successful `read_only` run. -/
def c1out : RunToolOutcome :=
  run_tool env0 "calendar.google.get_agenda"
    [("timezone", .jstr "America/Chicago")] devCtx none true "req-1" 0 dbEmpty

/-- Claim C1 (code bug, at scenario S1): `run_tool` returns `status=ok`,
but when the call returns the durable store still holds the ToolRun in
`started` with only the `tool_called` event; the `ok` finalization and the
`tool_succeeded` event exist only in the closed session and are never
committed. -/
theorem run_tool_terminal_status_not_committed :
    c1out.res.status = "ok" ∧
    (c1out.committed.tool_runs.map fun tr => (tr.request_id, tr.status))
      = [("req-1", "started")] ∧
    hasEvent c1out.committed "tool_called" = true ∧
    hasEvent c1out.committed "tool_succeeded" = false ∧
    (c1out.session.tool_runs.map fun tr => (tr.request_id, tr.status))
      = [("req-1", "ok")] ∧
    hasEvent c1out.session "tool_succeeded" = true :=
  ⟨rfl, rfl, rfl, rfl, rfl, rfl⟩

/-- Scenario S2: `sonos.play` in an allowlisted room under the cap. -/
def c2out : RunToolOutcome :=
  run_tool env0 "sonos.play" [("room", .jstr "Kitchen"), ("volume", .jint 30)]
    devCtx none true "req-2" 0 dbEmpty

/-- The approval context `run_tool` builds for scenario S2. -/
def c2payload : JDict :=
  [("tool_name", .jstr "sonos.play"), ("mode", .jstr "execute_gated"),
   ("reason", .jstr "Sonos actions require approval"),
   ("proposed_input", .jdict [("room", .jstr "Kitchen"), ("volume", .jint 30)])]

/-- Claim C2 (code bug, at scenario S2): the `require_approval` branch
builds the right `Approval(pending)` row — bound to this call's ToolRun,
with `tool_name`, `mode`, `reason` and `proposed_input = sanitized_input`
in its context — finalizes the ToolRun as `approval_required` and returns
the right envelope with `data.approval_id`; but all of that is written on
the closed session (gateway.py lines 157-205 sit outside the `with` block
that ended at line 105), so the durable store holds no Approval row at all
and the ToolRun stays `started`. -/
theorem run_tool_approval_row_not_persisted :
    c2out.res.status = "approval_required" ∧
    jget c2out.res.data "approval_id" = some (.jint 1) ∧
    (c2out.session.approvals.map fun a =>
        (a.approval_id, a.tool_run_id, a.status)) = [(1, 0, "pending")] ∧
    (c2out.session.approvals.map fun a => a.approval_context_json)
      = [c2payload] ∧
    (c2out.session.tool_runs.map fun tr => (tr.tool_run_id, tr.status))
      = [(0, "approval_required")] ∧
    hasEvent c2out.session "approval_requested" = true ∧
    c2out.committed.approvals = [] ∧
    (c2out.committed.tool_runs.map fun tr => (tr.request_id, tr.status))
      = [("req-2", "started")] ∧
    hasEvent c2out.committed "approval_requested" = false :=
  ⟨rfl, rfl, rfl, rfl, rfl, rfl, rfl, rfl, rfl⟩

/-- Scenario S4: `sonos.play` in a non-allowlisted room. -/
def c7out : RunToolOutcome :=
  run_tool env0 "sonos.play" [("room", .jstr "Garage"), ("volume", .jint 20)]
    devCtx none true "req-3" 0 dbEmpty

/-- Claim C7 (code bug, at scenario S4): the policy denies with the room
and the allowlist in `details`, `run_tool` returns `error/POLICY_VIOLATION`
and creates no Approval row — all as claimed — but the `policy_violation`
event (and the error finalization) is written on the closed session and is
never committed to the audit store. -/
theorem run_tool_policy_violation_event_not_committed :
    (PolicyEngine.evaluate py0 cfg0 sonosSpec
        [("room", .jstr "Garage"), ("volume", .jint 20)] devCtx).decision
      = .deny ∧
    (PolicyEngine.evaluate py0 cfg0 sonosSpec
        [("room", .jstr "Garage"), ("volume", .jint 20)] devCtx).details
      = [("room", .jstr "Garage"), ("allowed_rooms", .jlist [.jstr "Kitchen"])] ∧
    c7out.res.status = "error" ∧
    c7out.res.error = some
      [("code", .jstr "POLICY_VIOLATION"),
       ("message", .jstr "Room not allowlisted"),
       ("details", .jdict
         [("room", .jstr "Garage"), ("allowed_rooms", .jlist [.jstr "Kitchen"])])] ∧
    c7out.session.approvals = [] ∧
    c7out.committed.approvals = [] ∧
    hasEvent c7out.session "policy_violation" = true ∧
    hasEvent c7out.committed "policy_violation" = false :=
  ⟨rfl, rfl, rfl, rfl, rfl, rfl, rfl, rfl⟩

/-! ## `run_approved` lemmas (claims C3, C8, C10) -/

theorem get_approval_log_event (db : DBState) (p s t : String) (pl : JDict)
    (aid : Nat) : get_approval (log_event db p s t pl) aid = get_approval db aid :=
  rfl

theorem get_approval_finalize (db : DBState) (i : Nat) (st : String)
    (o e : JDict) (l : Nat) (aid : Nat) :
    get_approval (finalize_tool_run db i st o e l) aid = get_approval db aid :=
  rfl

theorem get_tool_run_log_event (db : DBState) (p s t : String) (pl : JDict)
    (i : Nat) : get_tool_run (log_event db p s t pl) i = get_tool_run db i :=
  rfl

theorem get_tool_run_resolve (db : DBState) (aid : Nat) (st : String)
    (now : Nat) (i : Nat) :
    get_tool_run (resolve_approval db aid st now) i = get_tool_run db i :=
  rfl

/-- In every path of `runApprovedExec` that returns an envelope, the
approvals table of the committed state is exactly the one produced by the
initial `pending → approved` transition: nothing after the transition
touches approvals. -/
theorem runApprovedExec_approvals (env : GatewayEnv) (aid : Nat) (ctx : JDict)
    (tms : Nat) (vo : Bool) (rid : String) (el now : Nat) (pid sid : String)
    (trid : Nat) (tnv : JVal) (pin : JDict) (db0 : DBState)
    (res : ToolResult) (db' : DBState)
    (h : runApprovedExec env aid ctx tms vo rid el now pid sid trid tnv pin db0
          = .returned res db') :
    db'.approvals = (resolve_approval db0 aid "approved" now).approvals := by
  simp only [runApprovedExec] at h
  repeat' split at h
  all_goals first
    | (cases h; rfl)
    | simp at h

/-- A returned `runApprovedExec` leaves the approval granted: `approved`
with `ts_resolved` set. -/
theorem runApprovedExec_grants (env : GatewayEnv) (aid : Nat) (ctx : JDict)
    (tms : Nat) (vo : Bool) (rid : String) (el now : Nat) (pid sid : String)
    (trid : Nat) (tnv : JVal) (pin : JDict) (db0 : DBState) (ap : ApprovalRow)
    (hap : get_approval db0 aid = some ap) (res : ToolResult) (db' : DBState)
    (h : runApprovedExec env aid ctx tms vo rid el now pid sid trid tnv pin db0
          = .returned res db') :
    get_approval db' aid
      = some { ap with status := "approved", ts_resolved := some now } := by
  have ha := runApprovedExec_approvals env aid ctx tms vo rid el now pid sid
    trid tnv pin db0 res db' h
  unfold get_approval
  rw [ha]
  exact get_approval_resolve db0 aid "approved" now ap hap

/-- The non-pending gate of `run_approved` (gateway.py lines 530-538),
as a reusable lemma. -/
theorem ra_nonpending_reject (env : GatewayEnv) (aid : Nat) (ctx : JDict)
    (tms : Option Nat) (vo : Bool) (rid : String) (el now : Nat) (db : DBState)
    (ap : ApprovalRow) (hap : get_approval db aid = some ap)
    (hst : ap.status ≠ "pending") :
    run_approved env aid ctx tms vo rid el now db =
      .returned (mkErr env.tool_version "approval.resolve" rid
        ErrorCode.POLICY_VIOLATION "Approval is not pending"
        [("approval_id", .jint aid), ("status", .jstr ap.status)] el "error") db := by
  simp [run_approved, hap, hst]

/-- The ToolRun row of scenario S2, finalized `approval_required`. -/
def trRow : ToolRunRow :=
  { tool_run_id := 0, profile_id := "dev", session_id := "dev",
    request_id := "req-2", tool_name := "sonos.play",
    status := "approval_required",
    input_json := [("room", .jstr "Kitchen"), ("volume", .jint 30)],
    output_json := [], error_json := [], latency_ms := 0 }

/-- The pending Approval of scenario S2, bound to `trRow`. -/
def apRow : ApprovalRow :=
  { approval_id := 1, tool_run_id := 0, profile_id := "dev",
    status := "pending", ts_resolved := none,
    approval_context_json := c2payload }

/-- A store holding scenario S2's pending approval and its ToolRun. -/
def dbPending : DBState := ⟨[], [trRow], [apRow], 2⟩

/-- Claim C3: `run_approved` on a missing approval returns
`error/NOT_FOUND`; on a non-pending approval it returns
`error/POLICY_VIOLATION` with message `"Approval is not pending"` and no
state change; and on a pending approval (bound to an existing ToolRun with
a well-formed context) every returned outcome has the approval transitioned
to `approved` with `ts_resolved` set — whatever the handler did — so a
second `run_approved` on the committed state is rejected with
`POLICY_VIOLATION`. -/
theorem run_approved_gate_single_flight (env : GatewayEnv) (aid : Nat)
    (ctx ctx₂ : JDict) (tms tms₂ : Option Nat) (vo vo₂ : Bool)
    (rid rid₂ : String) (el now el₂ now₂ : Nat) (db0 : DBState) :
    (get_approval db0 aid = none →
      run_approved env aid ctx tms vo rid el now db0 =
        .returned (mkErr env.tool_version "approval.resolve" rid
          ErrorCode.NOT_FOUND "Approval not found"
          [("approval_id", .jint aid)] el "error") db0) ∧
    (∀ ap : ApprovalRow, get_approval db0 aid = some ap → ap.status ≠ "pending" →
      run_approved env aid ctx tms vo rid el now db0 =
        .returned (mkErr env.tool_version "approval.resolve" rid
          ErrorCode.POLICY_VIOLATION "Approval is not pending"
          [("approval_id", .jint aid), ("status", .jstr ap.status)] el "error") db0) ∧
    (∀ (ap : ApprovalRow) (tr : ToolRunRow),
      get_approval db0 aid = some ap → ap.status = "pending" →
      get_tool_run db0 ap.tool_run_id = some tr →
      toolNameTruthy (jget ap.approval_context_json "tool_name") = true →
      raReturned (run_approved env aid ctx tms vo rid el now db0) = true →
      get_approval (raCommitted (run_approved env aid ctx tms vo rid el now db0)) aid
        = some { ap with status := "approved", ts_resolved := some now } ∧
      run_approved env aid ctx₂ tms₂ vo₂ rid₂ el₂ now₂
          (raCommitted (run_approved env aid ctx tms vo rid el now db0)) =
        .returned (mkErr env.tool_version "approval.resolve" rid₂
          ErrorCode.POLICY_VIOLATION "Approval is not pending"
          [("approval_id", .jint aid), ("status", .jstr "approved")] el₂ "error")
          (raCommitted (run_approved env aid ctx tms vo rid el now db0))) := by
  refine ⟨?_, ?_, ?_⟩
  · intro h
    simp [run_approved, h]
  · intro ap hap hst
    exact ra_nonpending_reject env aid ctx tms vo rid el now db0 ap hap hst
  · intro ap tr hap hpend htr htn hret
    have hred : run_approved env aid ctx tms vo rid el now db0 =
        runApprovedExec env aid ctx (tms.getD env.default_timeout_ms) vo rid el
          now (ctxGet ctx "profile_id") (ctxGet ctx "session_id") tr.tool_run_id
          ((jget ap.approval_context_json "tool_name").getD .jnull)
          (proposedInputOf ap.approval_context_json) db0 := by
      simp [run_approved, hap, hpend, htr, htn]
    rw [hred] at hret ⊢
    cases hcase : runApprovedExec env aid ctx (tms.getD env.default_timeout_ms)
        vo rid el now (ctxGet ctx "profile_id") (ctxGet ctx "session_id")
        tr.tool_run_id ((jget ap.approval_context_json "tool_name").getD .jnull)
        (proposedInputOf ap.approval_context_json) db0 with
    | returned res2 db' =>
      have hga := runApprovedExec_grants env aid ctx
        (tms.getD env.default_timeout_ms) vo rid el now
        (ctxGet ctx "profile_id") (ctxGet ctx "session_id") tr.tool_run_id
        ((jget ap.approval_context_json "tool_name").getD .jnull)
        (proposedInputOf ap.approval_context_json) db0 ap hap res2 db' hcase
      have hrej := ra_nonpending_reject env aid ctx₂ tms₂ vo₂ rid₂ el₂ now₂
        db' { ap with status := "approved", ts_resolved := some now } hga
        (by simp)
      exact ⟨hga, hrej⟩
    | raised m d =>
      rw [hcase] at hret
      simp [raReturned] at hret

/-- Closed witness for C3, at a concrete store holding a pending sonos
approval: the first `run_approved` grants it and a second call on the
committed state is rejected. -/
theorem run_approved_gate_single_flight_witness :
    get_approval
        (raCommitted (run_approved env0 1 devCtx none true "req-4" 0 5 dbPending)) 1
      = some { apRow with status := "approved", ts_resolved := some 5 } ∧
    run_approved env0 1 devCtx none true "req-5" 0 6
        (raCommitted (run_approved env0 1 devCtx none true "req-4" 0 5 dbPending)) =
      .returned (mkErr env0.tool_version "approval.resolve" "req-5"
        ErrorCode.POLICY_VIOLATION "Approval is not pending"
        [("approval_id", .jint 1), ("status", .jstr "approved")] 0 "error")
        (raCommitted (run_approved env0 1 devCtx none true "req-4" 0 5 dbPending)) :=
  (run_approved_gate_single_flight env0 1 devCtx devCtx none none true true
      "req-4" "req-5" 0 5 0 6 dbPending).2.2 apRow trRow rfl rfl rfl
    (by decide) (by decide)

theorem get_tool_run_finalize (db : DBState) (i : Nat) (st : String)
    (o e : JDict) (l : Nat) (tr : ToolRunRow) (h : get_tool_run db i = some tr) :
    get_tool_run (finalize_tool_run db i st o e l) i =
      some { tr with
        status := st, output_json := o, error_json := e,
        latency_ms := l } :=
  find_finalize_tool_runs db.tool_runs i st o e l tr h

/-- The input-revalidation-failure path of `runApprovedExec` (gateway.py
lines 586-600), spelled out: the approval stays granted, the *referenced*
ToolRun is finalized with the validation error, and the envelope is
`error/VALIDATION_ERROR`. -/
theorem runApprovedExec_invalid_input (env : GatewayEnv) (aid : Nat)
    (ctx : JDict) (tms : Nat) (vo : Bool) (rid : String) (el now : Nat)
    (pid sid : String) (trid : Nat) (nm : String) (pin : JDict) (db0 : DBState)
    (tool : GTool) (msg : String) (path : List String)
    (htool : env.lookup nm = some tool)
    (hval : env.validateInput nm pin = .invalid msg path) :
    runApprovedExec env aid ctx tms vo rid el now pid sid trid (.jstr nm) pin db0
      = .returned
          (mkErr env.tool_version nm rid ErrorCode.VALIDATION_ERROR
            "Input validation failed (approved run)"
            [("error", .jstr msg), ("path", .jlist (path.map .jstr))] el "error")
          (log_event
            (finalize_tool_run
              (log_event (resolve_approval db0 aid "approved" now) pid sid
                "approval_granted"
                [("approval_id", .jint aid), ("tool_name", .jstr nm)])
              trid "error" []
              [("code", .jstr ErrorCode.VALIDATION_ERROR),
               ("message", .jstr "Input validation failed (approved run)"),
               ("details", .jdict [("error", .jstr msg),
                 ("path", .jlist (path.map .jstr))])] el)
            pid sid "tool_failed"
            [("tool_name", .jstr nm), ("approval_id", .jint aid),
             ("error", .jdict [("code", .jstr ErrorCode.VALIDATION_ERROR),
               ("message", .jstr "Input validation failed (approved run)"),
               ("details", .jdict [("error", .jstr msg),
                 ("path", .jlist (path.map .jstr))])])]) := by
  simp [runApprovedExec, jlookup, pyStrName, htool, hval, mkErr]

/-- Claim C8: when the stored `proposed_input` fails validation against the
tool's current input schema, `run_approved` returns
`error/VALIDATION_ERROR`, finalizes the ToolRun the approval is bound to
with that error, and leaves the Approval in `approved` with `ts_resolved`
set — it is not reverted to `pending`. -/
theorem run_approved_revalidation_failure (env : GatewayEnv) (aid : Nat)
    (ctx : JDict) (tms : Option Nat) (vo : Bool) (rid : String) (el now : Nat)
    (db0 : DBState) (ap : ApprovalRow) (tr : ToolRunRow) (nm : String)
    (tool : GTool) (msg : String) (path : List String)
    (hap : get_approval db0 aid = some ap)
    (hpend : ap.status = "pending")
    (htr : get_tool_run db0 ap.tool_run_id = some tr)
    (hnm : jget ap.approval_context_json "tool_name" = some (.jstr nm))
    (hnm2 : nm ≠ "")
    (htool : env.lookup nm = some tool)
    (hval : env.validateInput nm (proposedInputOf ap.approval_context_json)
      = .invalid msg path) :
    raResult (run_approved env aid ctx tms vo rid el now db0)
      = some (mkErr env.tool_version nm rid ErrorCode.VALIDATION_ERROR
          "Input validation failed (approved run)"
          [("error", .jstr msg), ("path", .jlist (path.map .jstr))] el "error") ∧
    get_approval (raCommitted (run_approved env aid ctx tms vo rid el now db0)) aid
      = some { ap with status := "approved", ts_resolved := some now } ∧
    get_tool_run (raCommitted (run_approved env aid ctx tms vo rid el now db0))
        tr.tool_run_id
      = some { tr with
          status := "error", output_json := [],
          error_json := [("code", .jstr ErrorCode.VALIDATION_ERROR),
            ("message", .jstr "Input validation failed (approved run)"),
            ("details", .jdict [("error", .jstr msg),
              ("path", .jlist (path.map .jstr))])],
          latency_ms := el } := by
  have htn : toolNameTruthy (some (JVal.jstr nm)) = true := by
    simp [toolNameTruthy, jtruthy, hnm2]
  have heqid : tr.tool_run_id = ap.tool_run_id := by
    have h' := htr
    unfold get_tool_run at h'
    have := List.find?_some h'
    simpa using this
  have hred : run_approved env aid ctx tms vo rid el now db0 =
      runApprovedExec env aid ctx (tms.getD env.default_timeout_ms) vo rid el
        now (ctxGet ctx "profile_id") (ctxGet ctx "session_id") tr.tool_run_id
        (.jstr nm) (proposedInputOf ap.approval_context_json) db0 := by
    simp [run_approved, hap, hpend, htr, htn, hnm]
  rw [hred, runApprovedExec_invalid_input env aid ctx
    (tms.getD env.default_timeout_ms) vo rid el now (ctxGet ctx "profile_id")
    (ctxGet ctx "session_id") tr.tool_run_id nm
    (proposedInputOf ap.approval_context_json) db0 tool msg path htool hval]
  refine ⟨rfl, ?_, ?_⟩
  · show get_approval (resolve_approval db0 aid "approved" now) aid = _
    exact get_approval_resolve db0 aid "approved" now ap hap
  · show get_tool_run (finalize_tool_run
      (log_event (resolve_approval db0 aid "approved" now) _ _ _ _)
      tr.tool_run_id "error" [] _ el) tr.tool_run_id = _
    apply get_tool_run_finalize
    rw [get_tool_run_log_event, get_tool_run_resolve, heqid]
    exact htr

/-- Scenario S6's environment: the registry of `env0` with the input schema
replaced by a stricter one that rejects every stored input. -/
def env1 : GatewayEnv :=
  { env0 with validateInput := fun _ _ => .invalid "volume exceeds schema maximum" ["volume"] }

/-- Closed witness for C8 at scenario S6: the pending sonos approval's
stored input now fails validation. -/
theorem run_approved_revalidation_failure_witness :
    raResult (run_approved env1 1 devCtx none true "req-8" 0 9 dbPending)
      = some (mkErr env1.tool_version "sonos.play" "req-8"
          ErrorCode.VALIDATION_ERROR "Input validation failed (approved run)"
          [("error", .jstr "volume exceeds schema maximum"),
           ("path", .jlist (["volume"].map .jstr))] 0 "error") ∧
    get_approval (raCommitted (run_approved env1 1 devCtx none true "req-8" 0 9 dbPending)) 1
      = some { apRow with status := "approved", ts_resolved := some 9 } ∧
    get_tool_run (raCommitted (run_approved env1 1 devCtx none true "req-8" 0 9 dbPending))
        trRow.tool_run_id
      = some { trRow with
          status := "error", output_json := [],
          error_json := [("code", .jstr ErrorCode.VALIDATION_ERROR),
            ("message", .jstr "Input validation failed (approved run)"),
            ("details", .jdict [("error", .jstr "volume exceeds schema maximum"),
              ("path", .jlist (["volume"].map .jstr))])],
          latency_ms := 0 } :=
  run_approved_revalidation_failure env1 1 devCtx none true "req-8" 0 9
    dbPending apRow trRow "sonos.play" sonosTool "volume exceeds schema maximum"
    ["volume"] rfl rfl rfl rfl (by decide) rfl rfl

/-- Claim C10: only a missing or falsy `tool_name` in the approval context
is rejected as malformed (`error/INTERNAL_ERROR`); a context with a
non-empty `tool_name` but no `proposed_input` key proceeds into the normal
pipeline (validation, policy re-evaluation, execution) with `{}` as the
proposed input. -/
theorem run_approved_missing_proposed_input (env : GatewayEnv) (aid : Nat)
    (ctx : JDict) (tms : Option Nat) (vo : Bool) (rid : String) (el now : Nat)
    (db0 : DBState) (ap : ApprovalRow) (tr : ToolRunRow)
    (hap : get_approval db0 aid = some ap)
    (hpend : ap.status = "pending")
    (htr : get_tool_run db0 ap.tool_run_id = some tr) :
    (toolNameTruthy (jget ap.approval_context_json "tool_name") = false →
      run_approved env aid ctx tms vo rid el now db0 =
        .returned (mkErr env.tool_version "approval.resolve" rid
          ErrorCode.INTERNAL_ERROR "Malformed approval context (missing tool_name)"
          [("approval_id", .jint aid)] el "error") db0) ∧
    (∀ v : JVal, jget ap.approval_context_json "tool_name" = some v →
      jtruthy v = true →
      jget ap.approval_context_json "proposed_input" = none →
      run_approved env aid ctx tms vo rid el now db0 =
        runApprovedExec env aid ctx (tms.getD env.default_timeout_ms) vo rid el
          now (ctxGet ctx "profile_id") (ctxGet ctx "session_id")
          tr.tool_run_id v [] db0) := by
  constructor
  · intro h
    simp [run_approved, hap, hpend, htr, h]
  · intro v hv htv hnp
    have htn : toolNameTruthy (some v) = true := by
      simpa [toolNameTruthy] using htv
    have hpi : proposedInputOf ap.approval_context_json = [] := by
      simp [proposedInputOf, hnp]
    simp [run_approved, hap, hpend, htr, hv, htn, hpi]

/-- A pending approval whose context names the tool but stores no
`proposed_input` key. -/
def apRow2 : ApprovalRow :=
  { approval_id := 3, tool_run_id := 0, profile_id := "dev",
    status := "pending", ts_resolved := none,
    approval_context_json := [("tool_name", .jstr "sonos.play"),
      ("mode", .jstr "execute_gated")] }

/-- A pending approval whose context has no `tool_name` key at all. -/
def apRow3 : ApprovalRow :=
  { approval_id := 4, tool_run_id := 0, profile_id := "dev",
    status := "pending", ts_resolved := none,
    approval_context_json := [("mode", .jstr "execute_gated")] }

def dbPending2 : DBState := ⟨[], [trRow], [apRow2], 9⟩

def dbPending3 : DBState := ⟨[], [trRow], [apRow3], 9⟩

/-- Closed witness for C10: the context without `proposed_input` flows into
the pipeline with `{}`; the context without `tool_name` is the one rejected
as malformed. -/
theorem run_approved_missing_proposed_input_witness :
    (run_approved env0 3 devCtx none true "req-6" 0 7 dbPending2 =
      runApprovedExec env0 3 devCtx (Option.getD none env0.default_timeout_ms)
        true "req-6" 0 7 (ctxGet devCtx "profile_id") (ctxGet devCtx "session_id")
        trRow.tool_run_id (.jstr "sonos.play") [] dbPending2) ∧
    (run_approved env0 4 devCtx none true "req-7" 0 8 dbPending3 =
      .returned (mkErr env0.tool_version "approval.resolve" "req-7"
        ErrorCode.INTERNAL_ERROR "Malformed approval context (missing tool_name)"
        [("approval_id", .jint 4)] 0 "error") dbPending3) :=
  ⟨(run_approved_missing_proposed_input env0 3 devCtx none true "req-6" 0 7
      dbPending2 apRow2 trRow rfl rfl rfl).2 (.jstr "sonos.play") rfl
      (by decide) rfl,
   (run_approved_missing_proposed_input env0 4 devCtx none true "req-7" 0 8
      dbPending3 apRow3 trRow rfl rfl rfl).1 rfl⟩

end BayesIQ
